import Mathlib

/-
  Verification of the host-side driver in src/main.py (Thorlabs ELL17 stage).

  Modelling conventions:
  * A byte string is a `List Char` (all traffic in the driver is ASCII).
  * The serial transport is split into a pure device oracle `Env` (what reply
    the device produces for the request last written) and a mutable part
    `SerialSt` (current read timeout, the request a following read answers,
    and the log of all writes, in order).
  * Timeouts are rationals (`2`, `1/10`, `10` — the literals used by the code).
  * Python floats are modelled as rationals; every arithmetic fact proved here
    only involves values on which binary floating point is exact.
  * Raisable Python calls (`int` parsing, the uncaught `IndexError` in the
    stall-recovery path, attribute access before assignment) are modelled with
    `Except PyErr`.
-/

/-- Lowercase hex digit character, as produced by Python's `x` format code. -/
def hexChar (n : Nat) : Char :=
  if n < 10 then Char.ofNat (48 + n) else Char.ofNat (87 + n)

/-- Hex digits of `n` (most significant first, appended before `acc`), by
repeated division; the first argument is fuel, always sufficient at `n + 1`. -/
def natToHexCore : Nat → Nat → List Char → List Char
  | 0, _, acc => acc
  | fuel + 1, n, acc =>
    if n < 16 then hexChar n :: acc
    else natToHexCore fuel (n / 16) (hexChar (n % 16) :: acc)

/-- Hex digits of `n`, e.g. `natToHexL 0 = ['0']`, `natToHexL 256 = "100"`. -/
def natToHexL (n : Nat) : List Char := natToHexCore (n + 1) n []

/-- Left zero-padding to width `w`, as Python's `0{w}` fill (no truncation). -/
def padZeros (s : List Char) (w : Nat) : List Char :=
  List.replicate (w - s.length) '0' ++ s

/-- Python `f'{x:0{w}x}'` on an `int`: zero-padded lowercase hex; a negative
value is written with a sign, which counts toward the width. -/
def pyHexFmt (x : Int) (w : Nat) : List Char :=
  if x < 0 then '-' :: padZeros (natToHexL x.natAbs) (w - 1)
  else padZeros (natToHexL x.toNat) w

/-- `dec2hex` from src/main.py lines 6-24: two's-complement hex string of a
signed int. Mirrors the source exactly, including the `x > 0` guard that
sends `x = 0` into the `2**bits - abs(x)` branch. -/
def dec2hex (x : Int) (bits : Nat) : List Char :=
  if x > 0 then pyHexFmt x (bits / 4)
  else pyHexFmt ((2 : Int) ^ bits - |x|) (bits / 4)

/-- Value of a single hex digit (both cases accepted), `none` otherwise. -/
def hexDigitVal (c : Char) : Option Nat :=
  if 48 ≤ c.toNat ∧ c.toNat ≤ 57 then some (c.toNat - 48)
  else if 65 ≤ c.toNat ∧ c.toNat ≤ 70 then some (c.toNat - 55)
  else if 97 ≤ c.toNat ∧ c.toNat ≤ 102 then some (c.toNat - 87)
  else none

def hexValAux : List Char → Nat → Option Nat
  | [], acc => some acc
  | c :: cs, acc =>
    match hexDigitVal c with
    | none => none
    | some d => hexValAux cs (16 * acc + d)

/-- Python `int(s, 16)` on the plain hex-digit strings this protocol carries
(`none` models the `ValueError` on empty or non-hex input; the sign /
whitespace / underscore forms Python also tolerates never occur here). -/
def hexVal? : List Char → Option Nat
  | [] => none
  | l => hexValAux l 0

def decDigitVal (c : Char) : Option Nat :=
  if 48 ≤ c.toNat ∧ c.toNat ≤ 57 then some (c.toNat - 48) else none

def decValAux : List Char → Nat → Option Nat
  | [], acc => some acc
  | c :: cs, acc =>
    match decDigitVal c with
    | none => none
    | some d => decValAux cs (10 * acc + d)

/-- Python `int(s)` (base 10) on plain digit strings. -/
def decVal? : List Char → Option Nat
  | [] => none
  | l => decValAux l 0

/-- `hex2dec` from src/main.py lines 27-44: signed int from a two's-complement
hex string; `bits = 4 * len(x)` is taken from the string itself. -/
def hex2dec (x : List Char) : Option Int :=
  let bits := 4 * x.length
  match hexVal? x with
  | none => none
  | some u =>
    if (u : Int) < (2 : Int) ^ (bits - 1) then some (u : Int)
    else some (-((2 : Int) ^ bits - (u : Int)))

/-- Python slice `l[a:b]` for natural bounds. -/
def pySlice (l : List Char) (a b : Nat) : List Char := (l.take b).drop a

/-- Python `int(q)` on a real number: truncation toward zero (`Int.div` is
T-division and the denominator of a `Rat` is positive). -/
def pyInt (q : ℚ) : Int := Int.tdiv q.num (q.den : Int)

/-- Modelled from the spec (sections 4.1 and 7), for comparison with the
source's `dec2hex`: the encoder as specified, including the `RangeError`
rejection the source lacks. `none` stands for `RangeError`; per the spec a
non-negative value is emitted directly and a negative one as
`2^bit_width - |value|`, and the call fails when the encoded magnitude does
not fit in `bit_width` bits. -/
def encode_twos_complement_spec (x : Int) (bits : Nat) : Option (List Char) :=
  let mag : Int := if 0 ≤ x then x else (2 : Int) ^ bits - |x|
  if 0 ≤ mag ∧ mag < (2 : Int) ^ bits then some (pyHexFmt mag (bits / 4))
  else none

/-- The device side of the transport: the reply the transport will produce
for the request last written (reads truncate it to the requested length). -/
structure Env where
  reply : List Char → List Char

/-- Mutable transport state: current read timeout, the request the next read
answers, and the log of every write, in order. -/
structure SerialSt where
  timeout : ℚ
  pending : List Char
  log : List (List Char)
deriving DecidableEq, Repr

def serWrite (s : SerialSt) (msg : List Char) : SerialSt :=
  { timeout := s.timeout, pending := msg, log := s.log ++ [msg] }

def serRead (env : Env) (s : SerialSt) (n : Nat) : List Char :=
  (env.reply s.pending).take n

def setTimeout (s : SerialSt) (t : ℚ) : SerialSt :=
  { timeout := t, pending := s.pending, log := s.log }

/-- Python exceptions that can escape the modelled code paths. -/
inductive PyErr where
  /-- `IndexError` on `resp[0]` after the stall-recovery read (spec: `ProtocolError`). -/
  | protocolError
  /-- `ValueError` from `int(...)` on malformed digits (spec: `FormatError`). -/
  | valueError
  /-- `AttributeError`: attribute read before ever being assigned. -/
  | attrError
  /-- Construction failure when no probe address answered: `self.addr` is never
  assigned, so the first later use raises; the spec names this `NoDeviceFoundError`. -/
  | noDeviceFound
deriving DecidableEq, Repr

/-- Motor sub-channel data set by `_get_motor1_info` / `_get_motor2_info`;
`ru`/`rd` are `none` for the device's `FFFF` ("not defined") marker. -/
structure MotorInfo where
  loop : String
  motor : String
  current : ℚ
  ru : Option Nat
  rd : Option Nat
  fp : ℚ
  ff : ℚ
  bp : ℚ
  bf : ℚ
deriving DecidableEq, Repr

/-- Session state of class `ell17`: the configured operating timeout, the
discovered address (a single hex digit in every modelled scenario), and the
dynamically assigned attributes, `none` until first set. -/
structure Session where
  timeout : ℚ
  addr : Char
  model : Option Nat := none
  serialNum : Option Nat := none
  year : Option Nat := none
  fwrel : Option Nat := none
  thread : Option String := none
  hwrel : Option Nat := none
  travel : Option Nat := none
  pulses : Option Nat := none
  m1 : Option MotorInfo := none
  m2 : Option MotorInfo := none
  pos : Option ℚ := none
  velocity : Option Nat := none
  jogsize : Option ℚ := none
  err : Option Nat := none
  errMsg : Option String := none
deriving DecidableEq, Repr

/-- `ell17._query_msg` (src/main.py lines 90-109): write
`{addr}{cmd}{args...}`, read `resp_len` bytes; on an empty read, raise the
timeout to 10 s, issue `{addr}gs`, read up to 7 bytes, restore the operating
timeout, and use that reply; the recovery `resp[0]` may still raise
(`protocolError`), after the timeout has already been restored. -/
def query_msg (env : Env) (addr : Char) (cfgT : ℚ) (s : SerialSt)
    (cmd : List Char) (respLen : Nat) (args : List (List Char)) :
    Except PyErr (List Char × Char × List Char) × SerialSt :=
  let msg := addr :: (cmd ++ args.flatten)
  let s1 := serWrite s msg
  match serRead env s1 respLen with
  | [] =>
    let s2 := setTimeout s1 10
    let s3 := serWrite s2 (addr :: ['g', 's'])
    match serRead env s3 7 with
    | [] => (Except.error PyErr.protocolError, setTimeout s3 cfgT)
    | c :: rest =>
      (Except.ok (c :: rest, c, pySlice (c :: rest) 1 3), setTimeout s3 cfgT)
  | c :: rest => (Except.ok (c :: rest, c, pySlice (c :: rest) 1 3), s1)

def err_msg_lst : List String :=
  ["no error",
   "communication time out",
   "mechanical time out",
   "command error or not supported",
   "value out of range",
   "module isolated",
   "module out of isolation",
   "initializing error",
   "thermal error",
   "busy",
   "sensor error (may appear during self test. If code persists there is an error)",
   "motor error (may appear during self test. If code persists there is an error)",
   "out of range (e.g. stage has been instructed to move beyond its travel range)",
   "over current error"]

/-- `ell17._handle_status` (lines 112-124): decode `resp[3:5]` as a hex error
code and record it with its message (codes ≥ 14 are "reserved"). -/
def handle_status (sess : Session) (resp : List Char) : Except PyErr Session :=
  match hexVal? (pySlice resp 3 5) with
  | none => Except.error PyErr.valueError
  | some e =>
    Except.ok { sess with
      err := some e
      errMsg := some (if e ≥ 14 then "reserved" else err_msg_lst.getD e "") }

/-- `ell17.get_info` (lines 127-155): response length 35, unconditional field
decode (note: no `GS` check in the source). -/
def get_info (env : Env) (sess : Session) (s : SerialSt) :
    Except PyErr Session × SerialSt :=
  match query_msg env sess.addr sess.timeout s ['i', 'n'] 35 [] with
  | (Except.error e, s') => (Except.error e, s')
  | (Except.ok (resp, _, _), s') =>
    match hexVal? (pySlice resp 3 5), decVal? (pySlice resp 5 13),
        decVal? (pySlice resp 13 17), hexVal? (pySlice resp 17 19),
        hexVal? (pySlice resp 19 20), hexVal? (pySlice resp 20 21),
        hexVal? (pySlice resp 21 25), hexVal? (pySlice resp 25 33) with
    | some mo, some se, some yr, some fw, some th, some hw, some tr, some pu =>
      (Except.ok { sess with
          model := some mo
          serialNum := some se
          year := some yr
          fwrel := some fw
          thread := some (if th ≠ 0 then "imperial" else "metric")
          hwrel := some hw
          travel := some tr
          pulses := some pu }, s')
    | _, _, _, _, _, _, _, _ => (Except.error PyErr.valueError, s')

/-- `ell17._get_motor1_info` (lines 193-235): response length 27, with the
`GS` status check. -/
def get_motor1_info (env : Env) (sess : Session) (s : SerialSt) :
    Except PyErr Session × SerialSt :=
  match query_msg env sess.addr sess.timeout s ['i', '1'] 27 [] with
  | (Except.error e, s') => (Except.error e, s')
  | (Except.ok (resp, _, rCmd), s') =>
    if rCmd = ['G', 'S'] then
      match handle_status sess resp with
      | Except.error e => (Except.error e, s')
      | Except.ok sess1 => (Except.ok sess1, s')
    else
      match decVal? (pySlice resp 3 4), decVal? (pySlice resp 4 5),
          hexVal? (pySlice resp 5 9), hexVal? (pySlice resp 9 13),
          hexVal? (pySlice resp 13 17), hexVal? (pySlice resp 17 21),
          hexVal? (pySlice resp 21 25) with
      | some lp, some mt, some cur, some ru, some rd, some fpv, some bpv =>
        (Except.ok { sess with m1 := some {
            loop := if lp = 1 then "on" else "off"
            motor := if mt = 1 then "on" else "off"
            current := (cur : ℚ) / 1866
            ru := if pySlice resp 9 13 = ['F', 'F', 'F', 'F'] then none else some ru
            rd := if pySlice resp 13 17 = ['F', 'F', 'F', 'F'] then none else some rd
            fp := (fpv : ℚ) / 14740000
            ff := 1 / ((fpv : ℚ) / 14740000)
            bp := (bpv : ℚ) / 14740000
            bf := 1 / ((bpv : ℚ) / 14740000) } }, s')
      | _, _, _, _, _, _, _ => (Except.error PyErr.valueError, s')

/-- `ell17._get_motor2_info` (lines 238-280): near-duplicate of motor 1. -/
def get_motor2_info (env : Env) (sess : Session) (s : SerialSt) :
    Except PyErr Session × SerialSt :=
  match query_msg env sess.addr sess.timeout s ['i', '2'] 27 [] with
  | (Except.error e, s') => (Except.error e, s')
  | (Except.ok (resp, _, rCmd), s') =>
    if rCmd = ['G', 'S'] then
      match handle_status sess resp with
      | Except.error e => (Except.error e, s')
      | Except.ok sess1 => (Except.ok sess1, s')
    else
      match decVal? (pySlice resp 3 4), decVal? (pySlice resp 4 5),
          hexVal? (pySlice resp 5 9), hexVal? (pySlice resp 9 13),
          hexVal? (pySlice resp 13 17), hexVal? (pySlice resp 17 21),
          hexVal? (pySlice resp 21 25) with
      | some lp, some mt, some cur, some ru, some rd, some fpv, some bpv =>
        (Except.ok { sess with m2 := some {
            loop := if lp = 1 then "on" else "off"
            motor := if mt = 1 then "on" else "off"
            current := (cur : ℚ) / 1866
            ru := if pySlice resp 9 13 = ['F', 'F', 'F', 'F'] then none else some ru
            rd := if pySlice resp 13 17 = ['F', 'F', 'F', 'F'] then none else some rd
            fp := (fpv : ℚ) / 14740000
            ff := 1 / ((fpv : ℚ) / 14740000)
            bp := (bpv : ℚ) / 14740000
            bf := 1 / ((bpv : ℚ) / 14740000) } }, s')
      | _, _, _, _, _, _, _ => (Except.error PyErr.valueError, s')

/-- `ell17.get_motor_info` (lines 283-299). -/
def get_motor_info (env : Env) (sess : Session) (s : SerialSt) (motor : Int) :
    Except PyErr Session × SerialSt :=
  if motor = 1 then get_motor1_info env sess s
  else if motor = 2 then get_motor2_info env sess s
  else
    match query_msg env sess.addr sess.timeout s ('i' :: (toString motor).data) 7 [] with
    | (Except.error e, s') => (Except.error e, s')
    | (Except.ok (resp, _, _), s') =>
      match handle_status sess resp with
      | Except.error e => (Except.error e, s')
      | Except.ok sess1 => (Except.ok sess1, s')

/-- `ell17.get_pos` (lines 438-452): response length 13, `GS` check, then
`pos = hex2dec(resp[3:11]) / pulses`. -/
def get_pos (env : Env) (sess : Session) (s : SerialSt) :
    Except PyErr Session × SerialSt :=
  match query_msg env sess.addr sess.timeout s ['g', 'p'] 13 [] with
  | (Except.error e, s') => (Except.error e, s')
  | (Except.ok (resp, _, rCmd), s') =>
    if rCmd = ['G', 'S'] then
      match handle_status sess resp with
      | Except.error e => (Except.error e, s')
      | Except.ok sess1 => (Except.ok sess1, s')
    else
      match hex2dec (pySlice resp 3 11), sess.pulses with
      | some d, some p =>
        (Except.ok { sess with pos := some ((d : ℚ) / (p : ℚ)) }, s')
      | none, _ => (Except.error PyErr.valueError, s')
      | some _, none => (Except.error PyErr.attrError, s')

/-- `ell17.get_velocity` (lines 455-466): response length 7 and an
unconditional `velocity = int(resp[3:5], 16)` — no `GS` check in the source. -/
def get_velocity (env : Env) (sess : Session) (s : SerialSt) :
    Except PyErr Session × SerialSt :=
  match query_msg env sess.addr sess.timeout s ['g', 'v'] 7 [] with
  | (Except.error e, s') => (Except.error e, s')
  | (Except.ok (resp, _, _), s') =>
    match hexVal? (pySlice resp 3 5) with
    | none => (Except.error PyErr.valueError, s')
    | some v => (Except.ok { sess with velocity := some v }, s')

/-- `ell17.get_jog_stepsize` (lines 381-392): response length 13 and an
unconditional `jogsize = int(resp[3:11], 16) / pulses` — no `GS` check. -/
def get_jog_stepsize (env : Env) (sess : Session) (s : SerialSt) :
    Except PyErr Session × SerialSt :=
  match query_msg env sess.addr sess.timeout s ['g', 'j'] 13 [] with
  | (Except.error e, s') => (Except.error e, s')
  | (Except.ok (resp, _, _), s') =>
    match hexVal? (pySlice resp 3 11), sess.pulses with
    | some v, some p =>
      (Except.ok { sess with jogsize := some ((v : ℚ) / (p : ℚ)) }, s')
    | none, _ => (Except.error PyErr.valueError, s')
    | some _, none => (Except.error PyErr.attrError, s')

/-- Shared tail of `move` for a recognised mode (src/main.py lines 358-370):
query with response length 13; a `GS` reply is handled as a status report
followed by a resynchronising `get_pos`; otherwise the returned signed pulse
count updates the cached position. -/
def move_go (env : Env) (sess : Session) (s : SerialSt) (p : Nat)
    (cmd : List Char) : Except PyErr Session × SerialSt :=
  match query_msg env sess.addr sess.timeout s cmd 13 [] with
  | (Except.error e, s') => (Except.error e, s')
  | (Except.ok (resp, _, rCmd), s') =>
    if rCmd = ['G', 'S'] then
      match handle_status sess resp with
      | Except.error e => (Except.error e, s')
      | Except.ok sess1 => get_pos env sess1 s'
    else
      match hex2dec (pySlice resp 3 11) with
      | none => (Except.error PyErr.valueError, s')
      | some d => (Except.ok { sess with pos := some ((d : ℚ) / (p : ℚ)) }, s')

/-- `ell17.move` (lines 337-370): `pulses = int(pos * self.pulses)` and the
two's-complement encoding happen before the mode check; an unrecognised mode
only prints a message and returns, with no transport traffic. -/
def move (env : Env) (sess : Session) (s : SerialSt) (q : ℚ)
    (mode : List Char) : Except PyErr Session × SerialSt :=
  match sess.pulses with
  | none => (Except.error PyErr.attrError, s)
  | some p =>
    let hpulses := dec2hex (pyInt (q * (p : ℚ))) 32
    if mode = ['a', 'b', 's'] then move_go env sess s p (['m', 'a'] ++ hpulses)
    else if mode = ['r', 'e', 'l'] then move_go env sess s p (['m', 'r'] ++ hpulses)
    else (Except.ok sess, s)

/-- `ell17.jog` (lines 413-435): the direction string is the command itself;
response length 13, with the same `GS` / decode rules as `move`. -/
def jog (env : Env) (sess : Session) (s : SerialSt) (direction : List Char) :
    Except PyErr Session × SerialSt :=
  match query_msg env sess.addr sess.timeout s direction 13 [] with
  | (Except.error e, s') => (Except.error e, s')
  | (Except.ok (resp, _, rCmd), s') =>
    if rCmd = ['G', 'S'] then
      match handle_status sess resp with
      | Except.error e => (Except.error e, s')
      | Except.ok sess1 => get_pos env sess1 s'
    else
      match hex2dec (pySlice resp 3 11), sess.pulses with
      | some d, some p =>
        (Except.ok { sess with pos := some ((d : ℚ) / (p : ℚ)) }, s')
      | none, _ => (Except.error PyErr.valueError, s')
      | some _, none => (Except.error PyErr.attrError, s')

/-- `ell17.change_addr` (lines 174-190): issue `ca{new}`, handle the status
reply, adopt the new address only if the responder echoed it; otherwise
re-issue `ca` with the old address to clear the device's error latch and keep
the old address. -/
def change_addr (env : Env) (sess : Session) (s : SerialSt) (newAddr : Char) :
    Except PyErr Session × SerialSt :=
  match query_msg env sess.addr sess.timeout s ['c', 'a'] 7 [[newAddr]] with
  | (Except.error e, s') => (Except.error e, s')
  | (Except.ok (_resp, rAddr, _), s') =>
    match handle_status sess _resp with
    | Except.error e => (Except.error e, s')
    | Except.ok sess1 =>
      if rAddr = newAddr then (Except.ok { sess1 with addr := newAddr }, s')
      else
        match query_msg env sess1.addr sess1.timeout s' ['c', 'a'] 7 [[sess1.addr]] with
        | (Except.error e, s'') => (Except.error e, s'')
        | (Except.ok _, s'') => (Except.ok sess1, s'')

/-- The address-discovery loop of `ell17.__init__` (lines 71-76): probe each
candidate with `{a}gs`, read up to 7 bytes, adopt the first reply's leading
byte and stop. -/
def probe (env : Env) : List Char → SerialSt → Option Char × SerialSt
  | [], s => (none, s)
  | a :: rest, s =>
    let s1 := serWrite s (a :: ['g', 's'])
    match serRead env s1 7 with
    | [] => probe env rest s1
    | c :: _ => (some c, s1)

def opBind (r : Except PyErr Session × SerialSt)
    (f : Session → SerialSt → Except PyErr Session × SerialSt) :
    Except PyErr Session × SerialSt :=
  match r with
  | (Except.error e, s) => (Except.error e, s)
  | (Except.ok sess, s) => f sess s

def hexAddrs : List Char :=
  ['0', '1', '2', '3', '4', '5', '6', '7', '8', '9', 'A', 'B', 'C', 'D', 'E', 'F']

/-- `ell17.__init__` (lines 64-83): open at the operating timeout `t`, drop to
the 0.1 s discovery timeout, probe `'0'..'F'`, restore the operating timeout,
then fetch device info, both motor infos, position, velocity and jog step. If
no address answered, `self.addr` is never assigned and the first later use
raises (`noDeviceFound`); the timeout has been restored by then (line 77 runs
before `get_info`). -/
def ell17_init (env : Env) (t : ℚ) : Except PyErr Session × SerialSt :=
  let s0 : SerialSt := { timeout := t, pending := [], log := [] }
  let s1 := setTimeout s0 (1 / 10)
  match probe env hexAddrs s1 with
  | (none, s2) => (Except.error PyErr.noDeviceFound, setTimeout s2 t)
  | (some a, s2) =>
    let s3 := setTimeout s2 t
    let sess0 : Session := { timeout := t, addr := a }
    opBind (get_info env sess0 s3) fun sessA sA =>
    opBind (get_motor_info env sessA sA 1) fun sessB sB =>
    opBind (get_motor_info env sessB sB 2) fun sessC sC =>
    opBind (get_pos env sessC sC) fun sessD sD =>
    opBind (get_velocity env sessD sD) fun sessE sE =>
    opBind (get_jog_stepsize env sessE sE) fun sessF sF =>
    (Except.ok sessF, sF)

example : natToHexL 256 = ['1', '0', '0'] := by decide
example : dec2hex 10000 32 = ['0', '0', '0', '0', '2', '7', '1', '0'] := by decide
example : hex2dec ['8', '0'] = some (-128) := by decide
example : hex2dec ['7', 'f'] = some 127 := by decide
example : dec2hex (-1) 8 = ['f', 'f'] := by decide

example : hex2dec (dec2hex 0 32) = some 4294967296 := by decide
example : dec2hex 256 8 = ['1', '0', '0'] := by decide
example : encode_twos_complement_spec 256 8 = none := by decide
example : encode_twos_complement_spec 0 8 = some ['0', '0'] := by decide

/-- Transport that stalls on every command but answers the get-status
recovery request at address `'2'` with a 7-byte status frame. -/
def envStall : Env :=
  ⟨fun m => if m = ['2', 'g', 's'] then ['2', 'G', 'S', '0', '0', 'A', 'B'] else []⟩

/-- Transport that never answers anything. -/
def envDead : Env := ⟨fun _ => []⟩

/-- Standard post-construction test session at address `'2'` with 1000
pulses per mm. -/
def sessT : Session :=
  { timeout := 2
    addr := '2'
    pulses := some 1000
    pos := some 1
    velocity := some 50
    jogsize := some 1 }

/-- Device at address `'3'` that rejects a change-address request: it echoes
its own address `'3'` in the status reply to `ca5`, and answers the follow-up
`ca3` (old address) with a plain status frame. -/
def envCA : Env :=
  ⟨fun m =>
    if m = ['3', 'c', 'a', '5'] then ['3', 'C', 'A', '0', '0']
    else if m = ['3', 'c', 'a', '3'] then ['3', 'C', 'A', '0', '0']
    else []⟩

def sessCA : Session := { timeout := 2, addr := '3', pulses := some 1000 }

/-- A generic 7-byte-read status frame: responder `'3'`, command code `GS`,
error code `02` ("mechanical time out"). -/
def gsFrame : List Char := ['3', 'G', 'S', '0', '2']

/-- Transport that answers every request with `gsFrame`. -/
def envGS : Env := ⟨fun _ => gsFrame⟩

def ser0 : SerialSt := { timeout := 2, pending := [], log := [] }

/-- A healthy device at address `'7'`: probe reply (5-byte status frame). -/
def probeFrame : List Char := ['7', 'G', 'S', '0', '0']

/-- Reply to `7in`: model 0x11, serial 00001234, year 2019, firmware 0x01,
metric thread, hardware 1, travel 0x001C = 28 mm, 0x3E8 = 1000 pulses/mm. -/
def infoFrame : List Char :=
  ['7', 'I', 'N', '1', '1', '0', '0', '0', '0', '1', '2', '3', '4', '2', '0',
   '1', '9', '0', '1', '0', '1', '0', '0', '1', 'C', '0', '0', '0', '0', '0',
   '3', 'E', '8']

/-- Reply to `7i1`: loop on, motor on, current 0x0100, ramps not defined,
both periods 0x55F0 = 22000 (frequency 14740000/22000 = 670 Hz). -/
def m1Frame : List Char :=
  ['7', 'I', '1', '1', '1', '0', '1', '0', '0', 'F', 'F', 'F', 'F', 'F', 'F',
   'F', 'F', '5', '5', 'F', '0', '5', '5', 'F', '0']

/-- Reply to `7i2`: same data as motor 1. -/
def m2Frame : List Char :=
  ['7', 'I', '2', '1', '1', '0', '1', '0', '0', 'F', 'F', 'F', 'F', 'F', 'F',
   'F', 'F', '5', '5', 'F', '0', '5', '5', 'F', '0']

/-- Reply to `7gp`: position 0 pulses. -/
def gpFrame : List Char :=
  ['7', 'P', 'O', '0', '0', '0', '0', '0', '0', '0', '0']

/-- Reply to `7gv`: velocity 0x3C = 60 %. -/
def gvFrame : List Char := ['7', 'G', 'V', '3', 'C']

/-- Reply to `7gj`: jog step 0x400 = 1024 pulses. -/
def gjFrame : List Char :=
  ['7', 'G', 'J', '0', '0', '0', '0', '0', '4', '0', '0']

/-- Motor data decoded from `m1Frame` / `m2Frame`. -/
def mExp : MotorInfo :=
  { loop := "on"
    motor := "on"
    current := ((256 : Nat) : ℚ) / 1866
    ru := none
    rd := none
    fp := ((22000 : Nat) : ℚ) / 14740000
    ff := 1 / (((22000 : Nat) : ℚ) / 14740000)
    bp := ((22000 : Nat) : ℚ) / 14740000
    bf := 1 / (((22000 : Nat) : ℚ) / 14740000) }

/-- The session that construction against the healthy device produces. -/
def sessInit (t : ℚ) : Session :=
  { timeout := t
    addr := '7'
    model := some 17
    serialNum := some 1234
    year := some 2019
    fwrel := some 1
    thread := some "metric"
    hwrel := some 1
    travel := some 28
    pulses := some 1000
    m1 := some mExp
    m2 := some mExp
    pos := some (((0 : Int) : ℚ) / ((1000 : Nat) : ℚ))
    velocity := some 60
    jogsize := some (((1024 : Nat) : ℚ) / ((1000 : Nat) : ℚ))
    err := none
    errMsg := none }

/-- The healthy device of C4: silent except at address `'7'`. -/
def env7 : Env :=
  ⟨fun m =>
    if m = ['7', 'g', 's'] then probeFrame
    else if m = ['7', 'i', 'n'] then infoFrame
    else if m = ['7', 'i', '1'] then m1Frame
    else if m = ['7', 'i', '2'] then m2Frame
    else if m = ['7', 'g', 'p'] then gpFrame
    else if m = ['7', 'g', 'v'] then gvFrame
    else if m = ['7', 'g', 'j'] then gjFrame
    else []⟩

/-- Device at address `'2'` answering the absolute-move request for 10000
pulses with a position frame echoing 10000 pulses. -/
def envC7 : Env :=
  ⟨fun m =>
    if m = ['2', 'm', 'a', '0', '0', '0', '0', '2', '7', '1', '0'] then
      ['2', 'P', 'O', '0', '0', '0', '0', '2', '7', '1', '0']
    else []⟩

/-- Digit-count bound for the hex writer: a value of at least `16 ^ k` has
more than `k` hex digits (the `fuel < 16 ^ fuel` side condition is satisfied
by `natToHexL`'s choice of fuel). -/
theorem natToHexCore_length (fuel : Nat) :
    ∀ n acc k, 16 ^ k ≤ n → n < 16 ^ fuel →
      k + 1 + acc.length ≤ (natToHexCore fuel n acc).length := by
  induction fuel with
  | zero =>
    intro n acc k hk hf
    have hpos : 0 < 16 ^ k := pow_pos (by omega) k
    simp only [pow_zero, Nat.lt_one_iff] at hf
    omega
  | succ fuel ih =>
    intro n acc k hk hf
    simp only [natToHexCore]
    by_cases h16 : n < 16
    · have hk0 : k = 0 := by
        by_contra hne
        have h1 : 16 ≤ 16 ^ k := by
          calc 16 = 16 ^ 1 := (pow_one 16).symm
          _ ≤ 16 ^ k := Nat.pow_le_pow_right (by omega) (by omega)
        omega
      simp only [h16, if_true, hk0, List.length_cons]
      omega
    · simp only [h16, if_false]
      have hdivf : n / 16 < 16 ^ fuel := by
        rw [Nat.div_lt_iff_lt_mul (by omega : (0 : ℕ) < 16)]
        calc n < 16 ^ (fuel + 1) := hf
        _ = 16 ^ fuel * 16 := pow_succ 16 fuel
      cases k with
      | zero =>
        have := ih (n / 16) (hexChar (n % 16) :: acc) 0
          (by simp only [pow_zero]; exact Nat.one_le_div_iff (by omega) |>.mpr (by omega))
          hdivf
        simp only [List.length_cons] at this ⊢
        omega
      | succ k =>
        have hdk : 16 ^ k ≤ n / 16 := by
          rw [Nat.le_div_iff_mul_le (by omega)]
          calc 16 ^ k * 16 = 16 ^ (k + 1) := (pow_succ 16 k).symm
          _ ≤ n := hk
        have := ih (n / 16) (hexChar (n % 16) :: acc) k hdk hdivf
        simp only [List.length_cons] at this ⊢
        omega

/-- If `16 ^ k ≤ n` then `natToHexL n` has more than `k` digits. -/
theorem natToHexL_length (n k : Nat) (h : 16 ^ k ≤ n) :
    k < (natToHexL n).length := by
  have hf : n < 16 ^ (n + 1) := by
    calc n < 16 ^ n := Nat.lt_pow_self (by omega) n
    _ ≤ 16 ^ (n + 1) := Nat.pow_le_pow_right (by omega) (by omega)
  have := natToHexCore_length (n + 1) n [] k h hf
  simpa [natToHexL] using by omega

/-- C1 (code bug evaluation): the codec round-trip fails at `x = 0` with
`bit_width = 32`. Because of the `x > 0` guard, `dec2hex` sends `0` into the
`2**bits - abs(x)` branch and emits the nine-digit string `"100000000"`,
which `hex2dec` (reading the width from the string: 36 bits) decodes as
`4294967296`, not `0`. -/
theorem c1_roundtrip_fails_at_zero :
    dec2hex 0 32 = ['1', '0', '0', '0', '0', '0', '0', '0', '0'] ∧
    hex2dec (dec2hex 0 32) = some 4294967296 := by
  constructor <;> decide

/-- C8 counterexample: `dec2hex(256, 8)` does not fail at all — it returns
the three-digit string `"100"` — whereas the spec's encoder (modelled as
`encode_twos_complement_spec`, `none` standing for `RangeError`) rejects the
call. The source has no range check, so no error is ever raised. -/
theorem c8_no_range_error_at_256 :
    dec2hex 256 8 = ['1', '0', '0'] ∧
    encode_twos_complement_spec 256 8 = none := by
  constructor <;> decide

/-- C8 amended: `dec2hex` performs no range check and never fails; whenever a
positive value's magnitude does not fit in `bit_width` bits (it needs more
than `bit_width / 4` hex digits, i.e. `16 ^ (bits / 4) ≤ x`), the function
silently returns a hex string wider than the requested `bit_width / 4`
digits; being pure, it performs no I/O either way. In particular
`dec2hex(256, 8) = "100"`, three digits in place of two. -/
theorem c8_dec2hex_overflow_widens (x : Int) (bits : Nat)
    (hpos : 0 < x) (hbig : (16 : Int) ^ (bits / 4) ≤ x) :
    bits / 4 < (dec2hex x bits).length := by
  have hx : dec2hex x bits = padZeros (natToHexL x.toNat) (bits / 4) := by
    rw [dec2hex, if_pos hpos, pyHexFmt, if_neg (by omega)]
  rw [hx, padZeros, List.length_append, List.length_replicate]
  have hlen : bits / 4 < (natToHexL x.toNat).length := by
    apply natToHexL_length
    have hxe : (16 : Int) ^ (bits / 4) = ((16 ^ (bits / 4) : Nat) : Int) := by
      push_cast
      ring
    have h2 : ((16 ^ (bits / 4) : Nat) : Int) ≤ x := hxe ▸ hbig
    have h3 := Int.toNat_le_toNat h2
    rwa [Int.toNat_natCast] at h3
  omega

/-- C8 amended, witnessed at the spec's own example `value = 256,
bit_width = 8`: the output is wider than 2 digits. -/
theorem c8_dec2hex_overflow_widens_witness :
    (0 : Int) < 256 ∧ (16 : Int) ^ (8 / 4) ≤ 256 ∧ 8 / 4 < (dec2hex 256 8).length :=
  ⟨by decide, by decide, c8_dec2hex_overflow_widens 256 8 (by decide) (by decide)⟩

/-- C2: sensor-stall accommodation. If the first read for a request returns
zero bytes and the follow-up `{addr}gs` read returns a 7-byte frame, then
`_query_msg` returns that follow-up frame with its leading byte as responder
address and bytes 1:3 as command code, and the transport timeout ends at the
configured operating timeout `t`, not the extended 10 s recovery value. -/
theorem c2_query_stall_recovery (env : Env) (addr : Char) (t : ℚ) (s : SerialSt)
    (cmd : List Char) (n : Nat) (args : List (List Char))
    (c0 c1 c2 c3 c4 c5 c6 : Char)
    (hempty : env.reply (addr :: (cmd ++ args.flatten)) = [])
    (hframe : env.reply (addr :: ['g', 's']) = [c0, c1, c2, c3, c4, c5, c6]) :
    query_msg env addr t s cmd n args =
      (Except.ok ([c0, c1, c2, c3, c4, c5, c6], c0, [c1, c2]),
       { timeout := t
         pending := addr :: ['g', 's']
         log := (s.log ++ [addr :: (cmd ++ args.flatten)]) ++ [addr :: ['g', 's']] }) := by
  simp only [query_msg, serWrite, serRead, setTimeout, hempty, List.take_nil, hframe]
  rfl

theorem c2_query_stall_recovery_witness :
    query_msg envStall '2' 2 { timeout := 2, pending := [], log := [] } ['g', 'v'] 7 [] =
      (Except.ok (['2', 'G', 'S', '0', '0', 'A', 'B'], '2', ['G', 'S']),
       { timeout := 2
         pending := ['2', 'g', 's']
         log := [['2', 'g', 'v'], ['2', 'g', 's']] }) :=
  c2_query_stall_recovery envStall '2' 2 _ ['g', 'v'] 7 [] '2' 'G' 'S' '0' '0' 'A' 'B'
    (by decide) (by decide)

/-- C9: if the first read yields zero bytes and the stall-recovery read also
yields zero bytes, `_query_msg` raises (`protocolError`, the `IndexError` of
`resp[0]`); the timeout has already been restored to the configured operating
value when the error escapes, and no session state is touched (`_query_msg`
takes no session fields other than the address and configured timeout), so
the session remains usable. -/
theorem c9_query_double_stall_protocol_error (env : Env) (addr : Char) (t : ℚ)
    (s : SerialSt) (cmd : List Char) (n : Nat) (args : List (List Char))
    (hempty : env.reply (addr :: (cmd ++ args.flatten)) = [])
    (hempty2 : env.reply (addr :: ['g', 's']) = []) :
    query_msg env addr t s cmd n args =
      (Except.error PyErr.protocolError,
       { timeout := t
         pending := addr :: ['g', 's']
         log := (s.log ++ [addr :: (cmd ++ args.flatten)]) ++ [addr :: ['g', 's']] }) := by
  simp only [query_msg, serWrite, serRead, setTimeout, hempty, hempty2, List.take_nil]

theorem c9_query_double_stall_protocol_error_witness :
    query_msg envDead '2' 2 { timeout := 2, pending := [], log := [] } ['g', 'v'] 7 [] =
      (Except.error PyErr.protocolError,
       { timeout := 2
         pending := ['2', 'g', 's']
         log := [['2', 'g', 'v'], ['2', 'g', 's']] }) :=
  c9_query_double_stall_protocol_error envDead '2' 2 _ ['g', 'v'] 7 [] rfl rfl

/-- C10: for any mode other than `'abs'` or `'rel'`, `move` only prints a
complaint and returns: it writes nothing, reads nothing (the serial state is
returned untouched, including its log) and leaves every cached session field
unchanged (the session is returned as-is). The pulse conversion on line 349
reads `self.pulses` first, hence the hypothesis that it is set, as it is in
any constructed session. -/
theorem c10_move_unknown_mode_no_io (env : Env) (sess : Session) (s : SerialSt)
    (q : ℚ) (mode : List Char) (p : Nat) (hp : sess.pulses = some p)
    (h1 : mode ≠ ['a', 'b', 's']) (h2 : mode ≠ ['r', 'e', 'l']) :
    move env sess s q mode = (Except.ok sess, s) := by
  simp only [move, hp, if_neg h1, if_neg h2]

theorem c10_move_unknown_mode_no_io_witness :
    move envDead sessT { timeout := 2, pending := [], log := [] } 10 ['u', 'p'] =
      (Except.ok sessT, { timeout := 2, pending := [], log := [] }) :=
  c10_move_unknown_mode_no_io envDead sessT _ 10 ['u', 'p'] 1000 rfl
    (by decide) (by decide)

/-- Backbone lemma: a non-stalling query. If the device's reply to the
request is non-empty and no longer than the requested read length, the query
returns it as-is, with its head as responder address and bytes 1:3 as
responder command, having written exactly the one request. -/
theorem query_msg_ok (env : Env) (addr : Char) (t : ℚ) (s : SerialSt)
    (cmd : List Char) (n : Nat) (args : List (List Char)) (c : Char)
    (rest : List Char)
    (hframe : env.reply (addr :: (cmd ++ args.flatten)) = c :: rest)
    (hlen : rest.length + 1 ≤ n) :
    query_msg env addr t s cmd n args =
      (Except.ok (c :: rest, c, rest.take 2),
       serWrite s (addr :: (cmd ++ args.flatten))) := by
  have htake : (c :: rest).take n = c :: rest :=
    List.take_of_length_le (by simpa using hlen)
  simp only [query_msg, serWrite, serRead, hframe, htake]
  rfl

/-- C6: `change_addr` rejection and acceptance. First part: if the responder
echoes an address other than `new_addr` in the (5-byte status) reply, the
session keeps its old address, records the decoded status, and issues exactly
one further `ca` request carrying the old address as argument. Second part:
if the responder echoes `new_addr`, the session address is updated to it with
no second request. -/
theorem c6_change_addr_reject_accept :
    (∀ (env : Env) (sess : Session) (s : SerialSt) (newA c k1 k2 g0 : Char)
        (gr : List Char),
      c ≠ newA →
      env.reply (sess.addr :: ['c', 'a', newA]) = [c, k1, k2, '0', '0'] →
      env.reply (sess.addr :: ['c', 'a', sess.addr]) = g0 :: gr →
      gr.length ≤ 6 →
      change_addr env sess s newA =
        (Except.ok { sess with err := some 0, errMsg := some "no error" },
         serWrite (serWrite s (sess.addr :: ['c', 'a', newA]))
           (sess.addr :: ['c', 'a', sess.addr]))) ∧
    (∀ (env : Env) (sess : Session) (s : SerialSt) (newA k1 k2 : Char),
      env.reply (sess.addr :: ['c', 'a', newA]) = [newA, k1, k2, '0', '0'] →
      change_addr env sess s newA =
        (Except.ok { sess with
            addr := newA
            err := some 0
            errMsg := some "no error" },
         serWrite s (sess.addr :: ['c', 'a', newA]))) := by
  constructor
  · intro env sess s newA c k1 k2 g0 gr hne h1 h2 hg
    have hq1 := query_msg_ok env sess.addr sess.timeout s ['c', 'a'] 7 [[newA]]
      c [k1, k2, '0', '0'] h1 (by simp)
    have hh : handle_status sess [c, k1, k2, '0', '0'] =
        Except.ok { sess with err := some 0, errMsg := some "no error" } := rfl
    have hq2 := query_msg_ok env sess.addr sess.timeout
      (serWrite s (sess.addr :: ['c', 'a', newA])) ['c', 'a'] 7 [[sess.addr]]
      g0 gr h2 (by omega)
    simp only [List.flatten, List.cons_append, List.nil_append, List.append_nil]
      at hq1 hq2
    simp only [change_addr, hq1, hh, if_neg hne, List.flatten, List.cons_append,
      List.nil_append, List.append_nil, hq2]
  · intro env sess s newA k1 k2 h1
    have hq1 := query_msg_ok env sess.addr sess.timeout s ['c', 'a'] 7 [[newA]]
      newA [k1, k2, '0', '0'] h1 (by simp)
    have hh : handle_status sess [newA, k1, k2, '0', '0'] =
        Except.ok { sess with err := some 0, errMsg := some "no error" } := rfl
    simp only [List.flatten, List.cons_append, List.nil_append, List.append_nil]
      at hq1
    simp only [change_addr, hq1, hh, eq_self_iff_true, if_true, List.flatten,
      List.cons_append, List.nil_append, List.append_nil]

theorem c6_change_addr_reject_accept_witness :
    change_addr envCA sessCA { timeout := 2, pending := [], log := [] } '5' =
      (Except.ok { sessCA with err := some 0, errMsg := some "no error" },
       serWrite (serWrite { timeout := 2, pending := [], log := [] }
         ['3', 'c', 'a', '5']) ['3', 'c', 'a', '3']) :=
  c6_change_addr_reject_accept.1 envCA sessCA _ '5' '3' 'C' 'A' '3'
    ['C', 'A', '0', '0'] (by decide) (by decide) (by decide) (by decide)

/-- C7: `move(10.0, 'abs')` with 1000 pulses per unit writes the single
request `{addr}ma00002710` (pulse count 10000 as 8-digit two's-complement
hex), and when the reply is a non-`GS` frame whose bytes 3:11 decode to pulse
count 10000, the cached position is set to 10.0. -/
theorem c7_move_abs_encoding (env : Env) (sess : Session) (s : SerialSt)
    (c0 c1 c2 : Char) (pl : List Char)
    (hp : sess.pulses = some 1000)
    (hframe : env.reply
        (sess.addr :: ['m', 'a', '0', '0', '0', '0', '2', '7', '1', '0']) =
      c0 :: c1 :: c2 :: pl)
    (hlen : pl.length ≤ 10)
    (hcmd : ¬([c1, c2] = ['G', 'S']))
    (hdec : hex2dec (pl.take 8) = some 10000) :
    move env sess s 10 ['a', 'b', 's'] =
      (Except.ok { sess with pos := some 10 },
       serWrite s (sess.addr :: ['m', 'a', '0', '0', '0', '0', '2', '7', '1', '0'])) := by
  have henc : dec2hex (pyInt ((10 : ℚ) * ((1000 : Nat) : ℚ))) 32
      = ['0', '0', '0', '0', '2', '7', '1', '0'] := by
    have h10 : (10 : ℚ) * ((1000 : Nat) : ℚ) = 10000 := by norm_num
    rw [h10]
    decide
  have hq := query_msg_ok env sess.addr sess.timeout s
    (['m', 'a'] ++ ['0', '0', '0', '0', '2', '7', '1', '0']) 13 []
    c0 (c1 :: c2 :: pl) hframe (by simp; omega)
  have htk2 : (c1 :: c2 :: pl).take 2 = [c1, c2] := rfl
  have hsl : pySlice (c0 :: c1 :: c2 :: pl) 3 11 = pl.take 8 := rfl
  simp only [List.flatten, List.cons_append, List.nil_append, List.append_nil]
    at hq
  simp only [move, hp, henc, move_go, hq, htk2, if_neg hcmd, hsl, hdec,
    List.cons_append, List.nil_append, eq_self_iff_true, if_true,
    Prod.mk.injEq, Except.ok.injEq, Session.mk.injEq, and_true, true_and]
  all_goals norm_num

/-- Helper: `get_pos` on a `GS` reply delegates to status interpretation and
leaves the cached position untouched. -/
theorem get_pos_gs (env : Env) (sess : Session) (s : SerialSt)
    (hgp : env.reply (sess.addr :: ['g', 'p']) = gsFrame) :
    get_pos env sess s =
      (Except.ok { sess with err := some 2, errMsg := some "mechanical time out" },
       serWrite s (sess.addr :: ['g', 'p'])) := by
  have hq := query_msg_ok env sess.addr sess.timeout s ['g', 'p'] 13 []
    '3' ['G', 'S', '0', '2'] (by simpa [gsFrame] using hgp) (by simp)
  simp only [get_pos, hq]
  rfl

/-- C3 counterexample: `get_velocity` does not obey the claimed invariant.
On a session with cached velocity 50, a reply that is a generic `GS` status
frame (here carrying error code 02) is decoded as a velocity payload anyway:
the cached velocity is overwritten with 2 (the error code!) and no status is
recorded (`err` stays `none`), instead of delegating to status
interpretation and leaving the velocity unchanged. -/
theorem c3_get_velocity_gs_counterexample :
    get_velocity envGS sessT { timeout := 2, pending := [], log := [] } =
      (Except.ok { sessT with velocity := some 2 },
       serWrite { timeout := 2, pending := [], log := [] } ['2', 'g', 'v']) ∧
    pySlice (envGS.reply ['2', 'g', 'v']) 1 3 = ['G', 'S'] ∧
    sessT.velocity = some 50 ∧ sessT.err = none ∧
    ({ sessT with velocity := some 2 } : Session).err = none :=
  ⟨rfl, rfl, rfl, rfl, rfl⟩

/-- C3 amended: the status-frame invariant holds for `move`, `jog` and
`get_position` (on a `GS` reply they record the decoded status and do not
decode a command payload; `move` and `jog` then resynchronise through
`get_pos`, which on the same `GS` reply again leaves the position untouched),
but NOT for `get_velocity`, `get_jog_stepsize` and `get_device_info`:
`get_velocity` and `get_jog_stepsize` decode the status frame as if it were
their command payload and overwrite the cached state, and `get_info` fails
with a decode error; none of the three delegates to status interpretation. -/
theorem c3_gs_invariant_amended (env : Env) (sess : Session) (s : SerialSt)
    (p : Nat) (q : ℚ) (d : List Char)
    (hp : sess.pulses = some p)
    (hgp : env.reply (sess.addr :: ['g', 'p']) = gsFrame)
    (hgv : env.reply (sess.addr :: ['g', 'v']) = gsFrame)
    (hgj : env.reply (sess.addr :: ['g', 'j']) = gsFrame)
    (hin : env.reply (sess.addr :: ['i', 'n']) = gsFrame)
    (hjog : env.reply (sess.addr :: (d ++ List.flatten [])) = gsFrame)
    (hmv : env.reply
        (sess.addr :: ((['m', 'a'] ++ dec2hex (pyInt (q * (p : ℚ))) 32) ++ List.flatten [])) =
      gsFrame) :
    get_pos env sess s =
      (Except.ok { sess with err := some 2, errMsg := some "mechanical time out" },
       serWrite s (sess.addr :: ['g', 'p'])) ∧
    move env sess s q ['a', 'b', 's'] =
      (Except.ok { sess with err := some 2, errMsg := some "mechanical time out" },
       serWrite (serWrite s
           (sess.addr :: ((['m', 'a'] ++ dec2hex (pyInt (q * (p : ℚ))) 32) ++ List.flatten [])))
         (sess.addr :: ['g', 'p'])) ∧
    jog env sess s d =
      (Except.ok { sess with err := some 2, errMsg := some "mechanical time out" },
       serWrite (serWrite s (sess.addr :: (d ++ List.flatten [])))
         (sess.addr :: ['g', 'p'])) ∧
    get_velocity env sess s =
      (Except.ok { sess with velocity := some 2 },
       serWrite s (sess.addr :: ['g', 'v'])) ∧
    get_jog_stepsize env sess s =
      (Except.ok { sess with jogsize := some (((2 : Nat) : ℚ) / (p : ℚ)) },
       serWrite s (sess.addr :: ['g', 'j'])) ∧
    (get_info env sess s).1 = Except.error PyErr.valueError := by
  have hqgv := query_msg_ok env sess.addr sess.timeout s ['g', 'v'] 7 []
    '3' ['G', 'S', '0', '2'] (by simpa [gsFrame] using hgv) (by simp)
  have hqgj := query_msg_ok env sess.addr sess.timeout s ['g', 'j'] 13 []
    '3' ['G', 'S', '0', '2'] (by simpa [gsFrame] using hgj) (by simp)
  have hqin := query_msg_ok env sess.addr sess.timeout s ['i', 'n'] 35 []
    '3' ['G', 'S', '0', '2'] (by simpa [gsFrame] using hin) (by simp)
  have hqjog := query_msg_ok env sess.addr sess.timeout s d 13 []
    '3' ['G', 'S', '0', '2'] (by simpa [gsFrame] using hjog) (by simp)
  have hqmv := query_msg_ok env sess.addr sess.timeout s
    (['m', 'a'] ++ dec2hex (pyInt (q * (p : ℚ))) 32) 13 []
    '3' ['G', 'S', '0', '2'] (by simpa [gsFrame] using hmv) (by simp)
  refine ⟨get_pos_gs env sess s hgp, ?_, ?_, ?_, ?_, ?_⟩
  · have hsub := get_pos_gs env
      { sess with err := some 2, errMsg := some "mechanical time out" }
      (serWrite s
        (sess.addr :: ((['m', 'a'] ++ dec2hex (pyInt (q * (p : ℚ))) 32) ++ List.flatten [])))
      (by simpa using hgp)
    simp only [move, hp, move_go, hqmv]
    simp only [show handle_status sess ['3', 'G', 'S', '0', '2'] =
      Except.ok { sess with err := some 2, errMsg := some "mechanical time out" }
      from rfl]
    simpa [hp] using hsub
  · have hsub := get_pos_gs env
      { sess with err := some 2, errMsg := some "mechanical time out" }
      (serWrite s (sess.addr :: (d ++ List.flatten [])))
      (by simpa using hgp)
    simp only [jog, hqjog]
    simp only [show handle_status sess ['3', 'G', 'S', '0', '2'] =
      Except.ok { sess with err := some 2, errMsg := some "mechanical time out" }
      from rfl]
    simpa using hsub
  · simp only [get_velocity, hqgv]
    rfl
  · simp only [get_jog_stepsize, hqgj, hp]
    rfl
  · simp only [get_info, hqin]
    rfl

theorem c3_gs_invariant_amended_witness :
    get_pos envGS sessT ser0 =
      (Except.ok { sessT with err := some 2, errMsg := some "mechanical time out" },
       serWrite ser0 (sessT.addr :: ['g', 'p'])) ∧
    move envGS sessT ser0 1 ['a', 'b', 's'] =
      (Except.ok { sessT with err := some 2, errMsg := some "mechanical time out" },
       serWrite (serWrite ser0
           (sessT.addr :: ((['m', 'a'] ++ dec2hex (pyInt (1 * ((1000 : Nat) : ℚ))) 32) ++ List.flatten [])))
         (sessT.addr :: ['g', 'p'])) ∧
    jog envGS sessT ser0 ['f', 'w'] =
      (Except.ok { sessT with err := some 2, errMsg := some "mechanical time out" },
       serWrite (serWrite ser0 (sessT.addr :: (['f', 'w'] ++ List.flatten [])))
         (sessT.addr :: ['g', 'p'])) ∧
    get_velocity envGS sessT ser0 =
      (Except.ok { sessT with velocity := some 2 },
       serWrite ser0 (sessT.addr :: ['g', 'v'])) ∧
    get_jog_stepsize envGS sessT ser0 =
      (Except.ok { sessT with jogsize := some (((2 : Nat) : ℚ) / ((1000 : Nat) : ℚ)) },
       serWrite ser0 (sessT.addr :: ['g', 'j'])) ∧
    (get_info envGS sessT ser0).1 = Except.error PyErr.valueError :=
  c3_gs_invariant_amended envGS sessT ser0 1000 1 ['f', 'w']
    rfl rfl rfl rfl rfl rfl rfl

/-- One discovery step that reads nothing moves on to the next candidate. -/
theorem probe_miss (env : Env) (a : Char) (rest : List Char) (s : SerialSt)
    (h : env.reply (a :: ['g', 's']) = []) :
    probe env (a :: rest) s = probe env rest (serWrite s (a :: ['g', 's'])) := by
  simp only [probe, serWrite, serRead, h, List.take_nil]

/-- One discovery step that reads a non-empty reply adopts the reply's first
byte and stops. -/
theorem probe_hit (env : Env) (a c : Char) (cr rest : List Char) (s : SerialSt)
    (h : env.reply (a :: ['g', 's']) = c :: cr) :
    probe env (a :: rest) s = (some c, serWrite s (a :: ['g', 's'])) := by
  have htk : (c :: cr).take 7 = c :: cr.take 6 := rfl
  simp only [probe, serWrite, serRead, h, htk]

/-- `get_info` against `infoFrame` decodes every device-info field. -/
theorem get_info_good (env : Env) (sess : Session) (s : SerialSt)
    (hin : env.reply (sess.addr :: ['i', 'n']) = infoFrame) :
    get_info env sess s =
      (Except.ok { sess with
          model := some 17
          serialNum := some 1234
          year := some 2019
          fwrel := some 1
          thread := some "metric"
          hwrel := some 1
          travel := some 28
          pulses := some 1000 },
       serWrite s (sess.addr :: ['i', 'n'])) := by
  have hq := query_msg_ok env sess.addr sess.timeout s ['i', 'n'] 35 [] '7'
    ['I', 'N', '1', '1', '0', '0', '0', '0', '1', '2', '3', '4', '2', '0',
     '1', '9', '0', '1', '0', '1', '0', '0', '1', 'C', '0', '0', '0', '0', '0',
     '3', 'E', '8'] (by simpa [infoFrame] using hin) (by decide)
  simp only [get_info, hq]
  rfl

/-- `_get_motor1_info` against `m1Frame` decodes the motor-1 data. -/
theorem get_motor1_good (env : Env) (sess : Session) (s : SerialSt)
    (hi1 : env.reply (sess.addr :: ['i', '1']) = m1Frame) :
    get_motor1_info env sess s =
      (Except.ok { sess with m1 := some mExp },
       serWrite s (sess.addr :: ['i', '1'])) := by
  have hq := query_msg_ok env sess.addr sess.timeout s ['i', '1'] 27 [] '7'
    ['I', '1', '1', '1', '0', '1', '0', '0', 'F', 'F', 'F', 'F', 'F', 'F',
     'F', 'F', '5', '5', 'F', '0', '5', '5', 'F', '0']
    (by simpa [m1Frame] using hi1) (by decide)
  simp only [get_motor1_info, hq]
  rfl

/-- `_get_motor2_info` against `m2Frame` decodes the motor-2 data. -/
theorem get_motor2_good (env : Env) (sess : Session) (s : SerialSt)
    (hi2 : env.reply (sess.addr :: ['i', '2']) = m2Frame) :
    get_motor2_info env sess s =
      (Except.ok { sess with m2 := some mExp },
       serWrite s (sess.addr :: ['i', '2'])) := by
  have hq := query_msg_ok env sess.addr sess.timeout s ['i', '2'] 27 [] '7'
    ['I', '2', '1', '1', '0', '1', '0', '0', 'F', 'F', 'F', 'F', 'F', 'F',
     'F', 'F', '5', '5', 'F', '0', '5', '5', 'F', '0']
    (by simpa [m2Frame] using hi2) (by decide)
  simp only [get_motor2_info, hq]
  rfl

/-- `get_pos` against `gpFrame` caches position 0 / pulses. -/
theorem get_pos_good (env : Env) (sess : Session) (s : SerialSt)
    (hp : sess.pulses = some 1000)
    (hgp : env.reply (sess.addr :: ['g', 'p']) = gpFrame) :
    get_pos env sess s =
      (Except.ok { sess with pos := some (((0 : Int) : ℚ) / ((1000 : Nat) : ℚ)) },
       serWrite s (sess.addr :: ['g', 'p'])) := by
  have hq := query_msg_ok env sess.addr sess.timeout s ['g', 'p'] 13 [] '7'
    ['P', 'O', '0', '0', '0', '0', '0', '0', '0', '0']
    (by simpa [gpFrame] using hgp) (by decide)
  simp only [get_pos, hq, hp]
  rfl

/-- `get_velocity` against `gvFrame` caches velocity 60. -/
theorem get_velocity_good (env : Env) (sess : Session) (s : SerialSt)
    (hgv : env.reply (sess.addr :: ['g', 'v']) = gvFrame) :
    get_velocity env sess s =
      (Except.ok { sess with velocity := some 60 },
       serWrite s (sess.addr :: ['g', 'v'])) := by
  have hq := query_msg_ok env sess.addr sess.timeout s ['g', 'v'] 7 [] '7'
    ['G', 'V', '3', 'C'] (by simpa [gvFrame] using hgv) (by decide)
  simp only [get_velocity, hq]
  rfl

/-- `get_jog_stepsize` against `gjFrame` caches 1024 / pulses. -/
theorem get_jog_good (env : Env) (sess : Session) (s : SerialSt)
    (hp : sess.pulses = some 1000)
    (hgj : env.reply (sess.addr :: ['g', 'j']) = gjFrame) :
    get_jog_stepsize env sess s =
      (Except.ok { sess with jogsize := some (((1024 : Nat) : ℚ) / ((1000 : Nat) : ℚ)) },
       serWrite s (sess.addr :: ['g', 'j'])) := by
  have hq := query_msg_ok env sess.addr sess.timeout s ['g', 'j'] 13 [] '7'
    ['G', 'J', '0', '0', '0', '0', '0', '4', '0', '0']
    (by simpa [gjFrame] using hgj) (by decide)
  simp only [get_jog_stepsize, hq, hp]
  rfl

/-- C4: address discovery adopts the first responder and stops. Against a
transport that stays silent for probes `'0'..'6'` and answers the `'7'` probe
(and whose device then serves the six initial fetches), construction adopts
address `'7'`, probes exactly `'0'..'7'` — the write log shows no probe for
`'8'..'F'` — and finishes with the transport timeout restored to the
configured operating timeout `t`. -/
theorem c4_init_adopts_first_responder (env : Env) (t : ℚ)
    (h0 : env.reply ['0', 'g', 's'] = [])
    (h1 : env.reply ['1', 'g', 's'] = [])
    (h2 : env.reply ['2', 'g', 's'] = [])
    (h3 : env.reply ['3', 'g', 's'] = [])
    (h4 : env.reply ['4', 'g', 's'] = [])
    (h5 : env.reply ['5', 'g', 's'] = [])
    (h6 : env.reply ['6', 'g', 's'] = [])
    (h7 : env.reply ['7', 'g', 's'] = probeFrame)
    (hin : env.reply ['7', 'i', 'n'] = infoFrame)
    (hi1 : env.reply ['7', 'i', '1'] = m1Frame)
    (hi2 : env.reply ['7', 'i', '2'] = m2Frame)
    (hgp : env.reply ['7', 'g', 'p'] = gpFrame)
    (hgv : env.reply ['7', 'g', 'v'] = gvFrame)
    (hgj : env.reply ['7', 'g', 'j'] = gjFrame) :
    ell17_init env t =
      (Except.ok (sessInit t),
       { timeout := t
         pending := ['7', 'g', 'j']
         log := [['0', 'g', 's'], ['1', 'g', 's'], ['2', 'g', 's'],
                 ['3', 'g', 's'], ['4', 'g', 's'], ['5', 'g', 's'],
                 ['6', 'g', 's'], ['7', 'g', 's'], ['7', 'i', 'n'],
                 ['7', 'i', '1'], ['7', 'i', '2'], ['7', 'g', 'p'],
                 ['7', 'g', 'v'], ['7', 'g', 'j']] }) := by
  simp only [ell17_init, hexAddrs, setTimeout]
  rw [probe_miss env '0' _ _ h0, probe_miss env '1' _ _ h1,
      probe_miss env '2' _ _ h2, probe_miss env '3' _ _ h3,
      probe_miss env '4' _ _ h4, probe_miss env '5' _ _ h5,
      probe_miss env '6' _ _ h6,
      probe_hit env '7' '7' ['G', 'S', '0', '0'] _ _ h7]
  simp [opBind, get_motor_info, get_info_good, get_motor1_good,
    get_motor2_good, get_pos_good, get_velocity_good, get_jog_good,
    hin, hi1, hi2, hgp, hgv, hgj, serWrite, sessInit, mExp]

theorem c4_init_adopts_first_responder_witness :
    ell17_init env7 2 =
      (Except.ok (sessInit 2),
       { timeout := 2
         pending := ['7', 'g', 'j']
         log := [['0', 'g', 's'], ['1', 'g', 's'], ['2', 'g', 's'],
                 ['3', 'g', 's'], ['4', 'g', 's'], ['5', 'g', 's'],
                 ['6', 'g', 's'], ['7', 'g', 's'], ['7', 'i', 'n'],
                 ['7', 'i', '1'], ['7', 'i', '2'], ['7', 'g', 'p'],
                 ['7', 'g', 'v'], ['7', 'g', 'j']] }) :=
  c4_init_adopts_first_responder env7 2 (by decide) (by decide) (by decide)
    (by decide) (by decide) (by decide) (by decide) (by decide) (by decide)
    (by decide) (by decide) (by decide) (by decide) (by decide)

/-- C5: if all sixteen probe reads during address discovery come back empty,
construction fails (`noDeviceFound`: in the source `self.addr` is never
assigned, so `get_info`'s use of it raises and the constructor never
completes). The write log shows exactly the sixteen probes, and the timeout
has been restored to the operating value `t` (line 77 runs before the
failing `get_info`). -/
theorem c5_all_silent_no_device (env : Env) (t : ℚ)
    (h : ∀ a, a ∈ hexAddrs → env.reply (a :: ['g', 's']) = []) :
    ell17_init env t =
      (Except.error PyErr.noDeviceFound,
       { timeout := t
         pending := ['F', 'g', 's']
         log := [['0', 'g', 's'], ['1', 'g', 's'], ['2', 'g', 's'],
                 ['3', 'g', 's'], ['4', 'g', 's'], ['5', 'g', 's'],
                 ['6', 'g', 's'], ['7', 'g', 's'], ['8', 'g', 's'],
                 ['9', 'g', 's'], ['A', 'g', 's'], ['B', 'g', 's'],
                 ['C', 'g', 's'], ['D', 'g', 's'], ['E', 'g', 's'],
                 ['F', 'g', 's']] }) := by
  simp only [ell17_init, hexAddrs, setTimeout]
  rw [probe_miss env '0' _ _ (h '0' (by decide)),
      probe_miss env '1' _ _ (h '1' (by decide)),
      probe_miss env '2' _ _ (h '2' (by decide)),
      probe_miss env '3' _ _ (h '3' (by decide)),
      probe_miss env '4' _ _ (h '4' (by decide)),
      probe_miss env '5' _ _ (h '5' (by decide)),
      probe_miss env '6' _ _ (h '6' (by decide)),
      probe_miss env '7' _ _ (h '7' (by decide)),
      probe_miss env '8' _ _ (h '8' (by decide)),
      probe_miss env '9' _ _ (h '9' (by decide)),
      probe_miss env 'A' _ _ (h 'A' (by decide)),
      probe_miss env 'B' _ _ (h 'B' (by decide)),
      probe_miss env 'C' _ _ (h 'C' (by decide)),
      probe_miss env 'D' _ _ (h 'D' (by decide)),
      probe_miss env 'E' _ _ (h 'E' (by decide)),
      probe_miss env 'F' _ _ (h 'F' (by decide))]
  simp [probe, serWrite]

theorem c5_all_silent_no_device_witness :
    ell17_init envDead 2 =
      (Except.error PyErr.noDeviceFound,
       { timeout := 2
         pending := ['F', 'g', 's']
         log := [['0', 'g', 's'], ['1', 'g', 's'], ['2', 'g', 's'],
                 ['3', 'g', 's'], ['4', 'g', 's'], ['5', 'g', 's'],
                 ['6', 'g', 's'], ['7', 'g', 's'], ['8', 'g', 's'],
                 ['9', 'g', 's'], ['A', 'g', 's'], ['B', 'g', 's'],
                 ['C', 'g', 's'], ['D', 'g', 's'], ['E', 'g', 's'],
                 ['F', 'g', 's']] }) :=
  c5_all_silent_no_device envDead 2 (fun _ _ => rfl)

theorem c7_move_abs_encoding_witness :
    move envC7 sessT ser0 10 ['a', 'b', 's'] =
      (Except.ok { sessT with pos := some 10 },
       serWrite ser0 (sessT.addr :: ['m', 'a', '0', '0', '0', '0', '2', '7', '1', '0'])) :=
  c7_move_abs_encoding envC7 sessT ser0 '2' 'P' 'O'
    ['0', '0', '0', '0', '2', '7', '1', '0'] rfl (by decide) (by decide)
    (by decide) (by decide)
